import Mathlib

/-!
Shallow embedding of `src/deposit.py` (Zenodo deposition client and
transactional state machine) and proofs about its lifecycle claims.

HTTP transport is modelled by an oracle: each remote call made through the
`Client` takes a `clientOk : Bool` saying whether `raise_for_status` would
succeed, and the calls are recorded as `Effect`s so that "issues one publish
call" / "issues no delete request" are statements about the effect trace.
-/

namespace Deposit

/-- JSON values, enough for the bodies pydantic produces. -/
inductive Json where
  | null
  | str (s : String)
  | bool (b : Bool)
  | arr (xs : List Json)
  | obj (fields : List (String × Json))

/-- Embeds `class Person(BaseModel)`: `name: str`, `affiliation: str | None`,
`orcid: str | None`.  All three fields have no default, so pydantic requires
them to be passed explicitly (they are always "set"). -/
structure Person where
  name : String
  affiliation : Option String
  orcid : Option String
deriving DecidableEq, Repr

/-- Embeds `class DepositionMetadata(BaseModel)`.  `doi` and `prereserve_doi`
have defaults (`None` resp. `False`); the other fields are required. -/
structure DepositionMetadata where
  upload_type : String
  title : String
  description : String
  creators : List Person
  access_right : String
  license : String
  version : String
  doi : Option String := none
  prereserve_doi : Bool := false
deriving DecidableEq, Repr

/-- A pydantic model instance also tracks which fields were explicitly set
(`model_fields_set`).  Only `doi` and `prereserve_doi` have defaults, so only
they can be unset; required fields are always set. -/
structure DepositionMetadataInstance where
  value : DepositionMetadata
  doi_was_set : Bool
  prereserve_doi_was_set : Bool
deriving DecidableEq, Repr

/-- Serialize an `Option String` field under `exclude_none=True`: a `None`
value makes the field disappear from the JSON object entirely. -/
def dumpOptField (key : String) (v : Option String) : List (String × Json) :=
  match v with
  | none => []
  | some s => [(key, Json.str s)]

/-- Embeds pydantic `model_dump_json(exclude_none=True)` on `Person`
(as invoked by `Client._request` when `model` is passed): every field whose
value is `None` is omitted, every other field is included. -/
def Person.model_dump_exclude_none (p : Person) : List (String × Json) :=
  [("name", Json.str p.name)]
    ++ dumpOptField "affiliation" p.affiliation
    ++ dumpOptField "orcid" p.orcid

/-- Embeds pydantic `model_dump_json(exclude_none=True)` on
`DepositionMetadata`: fields are dropped exactly when their value is `None`,
independently of whether they were explicitly set.  `prereserve_doi : bool`
is never `None`, so it is always included. -/
def DepositionMetadata.model_dump_exclude_none (m : DepositionMetadata) :
    List (String × Json) :=
  [("upload_type", Json.str m.upload_type),
   ("title", Json.str m.title),
   ("description", Json.str m.description),
   ("creators", Json.arr (m.creators.map (fun p => Json.obj p.model_dump_exclude_none))),
   ("access_right", Json.str m.access_right),
   ("license", Json.str m.license),
   ("version", Json.str m.version)]
    ++ dumpOptField "doi" m.doi
    ++ [("prereserve_doi", Json.bool m.prereserve_doi)]

/-- The dump performed by `Client._request` on a metadata instance: pydantic's
`exclude_none` looks only at the field values, never at `model_fields_set`. -/
def DepositionMetadataInstance.model_dump (m : DepositionMetadataInstance) :
    List (String × Json) :=
  m.value.model_dump_exclude_none

/-- Modelled from the spec wording of claim C7 (for comparison only): "only
fields truly absent (left unset) are omitted, while a field that is set but
equal to its type's empty value is still included".  Under this rule a field
appears in the body iff it was explicitly set, its value (even `None`/empty)
notwithstanding; required fields are always set. -/
def DepositionMetadataInstance.dump_spec_rule (m : DepositionMetadataInstance) :
    List (String × Json) :=
  [("upload_type", Json.str m.value.upload_type),
   ("title", Json.str m.value.title),
   ("description", Json.str m.value.description),
   ("creators", Json.arr (m.value.creators.map (fun p => Json.obj p.model_dump_exclude_none))),
   ("access_right", Json.str m.value.access_right),
   ("license", Json.str m.value.license),
   ("version", Json.str m.value.version)]
    ++ (if m.doi_was_set then
          [("doi", (m.value.doi.map Json.str).getD Json.null)]
        else [])
    ++ (if m.prereserve_doi_was_set then
          [("prereserve_doi", Json.bool m.value.prereserve_doi)]
        else [])

/-- The keys of a dumped JSON object. -/
def dumpKeys (fields : List (String × Json)) : List String :=
  fields.map Prod.fst

/-- The `metadata.prereserve_doi` sub-object of a server deposition record
(shape per the consumed JSON: `{"doi": ...}`). -/
structure PrereserveDoi where
  doi : String
deriving DecidableEq, Repr

/-- The `metadata` part of a server deposition record as consumed by the code:
only `prereserve_doi` is read, and it may be absent. -/
structure RecordMetadata where
  prereserve_doi : Option PrereserveDoi
deriving DecidableEq, Repr

/-- A raw server deposition record, typed with exactly the shape the code
consumes: `id`, `state`, `submitted`, `metadata.prereserve_doi.doi` (optional)
and `links.bucket`. -/
structure DepositionRecord where
  id : String
  state : String
  submitted : Bool
  metadata : RecordMetadata
  links_bucket : String
deriving DecidableEq, Repr

/-- Embeds the nested `DepositionTransaction._State` enum. -/
inductive TState where
  | Pending
  | Committed
  | Aborted
  | Leaked
deriving DecidableEq, Repr

/-- The observable remote actions: each constructor corresponds to one
`Client` method actually being invoked (one HTTP request issued), plus `warn`
for a logger warning. -/
inductive Effect where
  | publish (id : String)
  | delete (id : String)
  | putFile (bucket : String) (name : String)
  | warn
deriving DecidableEq, Repr

/-- The two error kinds of the design: transport errors raised by
`raise_for_status`, and domain `ValueError`s. -/
inductive ZError where
  | http
  | domain (msg : String)
deriving DecidableEq, Repr

/-- A minimal `httpx.Response`: only success status is inspected here. -/
structure Response where
  is_success : Bool
deriving DecidableEq, Repr

/-- A minimal `pathlib.Path`: only `.name` (the base name) is read. -/
structure UploadPath where
  name : String
deriving DecidableEq, Repr

/-- Embeds `Client.commit_deposition`: POSTs the publish action, then
`raise_for_status`.  The HTTP outcome is the oracle `clientOk`; the request is
issued (effect recorded) either way. -/
def Client.commit_deposition (clientOk : Bool) (deposition_id : String) :
    Except ZError Unit × List Effect :=
  if clientOk then (Except.ok (), [Effect.publish deposition_id])
  else (Except.error ZError.http, [Effect.publish deposition_id])

/-- Embeds `Client.abort_deposition`: DELETEs the deposition, then
`raise_for_status`. -/
def Client.abort_deposition (clientOk : Bool) (deposition_id : String) :
    Except ZError Unit × List Effect :=
  if clientOk then (Except.ok (), [Effect.delete deposition_id])
  else (Except.error ZError.http, [Effect.delete deposition_id])

/-- Embeds `Client.add_file_to_deposition`: defaults the name to the path's
base name, PUTs the content to the bucket, and returns the raw response (the
oracle `resp`) without raising regardless of success. -/
def Client.add_file_to_deposition (bucket_link : String) (path : UploadPath)
    (name : Option String) (resp : Response) : Response × List Effect :=
  let n := match name with
    | none => path.name
    | some s => s
  (resp, [Effect.putFile bucket_link n])

/-- Embeds `class DepositionTransaction` (the client reference is replaced by
the oracle arguments of the operations). -/
structure DepositionTransaction where
  _deposition_json : DepositionRecord
  _state : TState
deriving DecidableEq, Repr

namespace DepositionTransaction

/-- Embeds `DepositionTransaction.__init__`: a fresh transaction starts
Pending. -/
def mk_new (deposition_json : DepositionRecord) : DepositionTransaction :=
  { _deposition_json := deposition_json, _state := TState.Pending }

/-- Property `deposition_id`. -/
def deposition_id (t : DepositionTransaction) : String :=
  t._deposition_json.id

/-- Property `reserved_deposition_doi`: `None` when the record's metadata has
no `prereserve_doi` entry, else the nested `doi`. -/
def reserved_deposition_doi (t : DepositionTransaction) : Option String :=
  match t._deposition_json.metadata.prereserve_doi with
  | none => none
  | some obj => some obj.doi

/-- Property `bucket_link`. -/
def bucket_link (t : DepositionTransaction) : String :=
  t._deposition_json.links_bucket

/-- Property `pending`. -/
def pending (t : DepositionTransaction) : Bool :=
  t._state == TState.Pending

/-- Property `committed`. -/
def committed (t : DepositionTransaction) : Bool :=
  t._state == TState.Committed

/-- Property `aborted`. -/
def aborted (t : DepositionTransaction) : Bool :=
  t._state == TState.Aborted

/-- Property `leaked`. -/
def leaked (t : DepositionTransaction) : Bool :=
  t._state == TState.Leaked

/-- Embeds `DepositionTransaction.commit`: if not pending, log a warning and
return (never raises); otherwise call `Client.commit_deposition` and, only if
it returned, set the state to Committed. -/
def commit (t : DepositionTransaction) (clientOk : Bool) :
    Except ZError Unit × DepositionTransaction × List Effect :=
  if !t.pending then
    (Except.ok (), t, [Effect.warn])
  else
    match Client.commit_deposition clientOk t.deposition_id with
    | (Except.ok _, effs) =>
        (Except.ok (), { t with _state := TState.Committed }, effs)
    | (Except.error e, effs) => (Except.error e, t, effs)

/-- Embeds `DepositionTransaction.abort`.  Note the control flow of the
source: the `committed` branch logs a warning but does NOT return, so it falls
through to `Client.abort_deposition` and the state assignment; the `leaked`
and `aborted` branches log and return. -/
def abort (t : DepositionTransaction) (clientOk : Bool) :
    Except ZError Unit × DepositionTransaction × List Effect :=
  if t.committed then
    match Client.abort_deposition clientOk t.deposition_id with
    | (Except.ok _, effs) =>
        (Except.ok (), { t with _state := TState.Aborted }, Effect.warn :: effs)
    | (Except.error e, effs) => (Except.error e, t, Effect.warn :: effs)
  else if t.leaked then
    (Except.ok (), t, [Effect.warn])
  else if t.aborted then
    (Except.ok (), t, [Effect.warn])
  else
    match Client.abort_deposition clientOk t.deposition_id with
    | (Except.ok _, effs) =>
        (Except.ok (), { t with _state := TState.Aborted }, effs)
    | (Except.error e, effs) => (Except.error e, t, effs)

/-- Embeds `DepositionTransaction._expect_pending`: raise a `ValueError`
unless pending. -/
def _expect_pending (t : DepositionTransaction) (operation : String) :
    Except ZError Unit :=
  if !t.pending then
    Except.error (ZError.domain
      ("Cannot " ++ operation ++ " deposition " ++ t.deposition_id
        ++ " because the deposition has been " ++
        (match t._state with
         | TState.Pending => "pending"
         | TState.Committed => "committed"
         | TState.Aborted => "aborted"
         | TState.Leaked => "leaked")))
  else Except.ok ()

/-- Embeds `DepositionTransaction.leak`: strict pending guard, then move to
Leaked.  No remote call is made. -/
def leak (t : DepositionTransaction) :
    Except ZError Unit × DepositionTransaction × List Effect :=
  match t._expect_pending "leak" with
  | Except.error e => (Except.error e, t, [])
  | Except.ok _ => (Except.ok (), { t with _state := TState.Leaked }, [])

/-- Embeds `DepositionTransaction.add_file`: strict pending guard, then
delegate to `Client.add_file_to_deposition` on this transaction's bucket link
and return the raw response.  The state is not modified. -/
def add_file (t : DepositionTransaction) (path : UploadPath)
    (name : Option String) (resp : Response) :
    Except ZError Response × DepositionTransaction × List Effect :=
  match t._expect_pending "add a file to" with
  | Except.error e => (Except.error e, t, [])
  | Except.ok _ =>
      let r := Client.add_file_to_deposition t.bucket_link path name resp
      (Except.ok r.1, t, r.2)

/-- Embeds `DepositionTransaction.__exit__`: on scope exit, abort unless
committed or leaked. -/
def scope_exit (t : DepositionTransaction) (clientOk : Bool) :
    Except ZError Unit × DepositionTransaction × List Effect :=
  if !t.committed && !t.leaked then t.abort clientOk
  else (Except.ok (), t, [])

end DepositionTransaction

/-- Embeds `Client.continue_deposition`, applied to the already-fetched
deposition record: fail with a domain `ValueError` if the record is submitted
or its state is `done`/`error`, otherwise wrap it in a fresh Pending
transaction. -/
def Client.continue_deposition (deposition : DepositionRecord) :
    Except ZError DepositionTransaction :=
  if deposition.submitted || (deposition.state == "done" || deposition.state == "error") then
    Except.error (ZError.domain
      ("Cannot continue deposition " ++ deposition.id
        ++ ", the deposition is not in progress."))
  else
    Except.ok (DepositionTransaction.mk_new deposition)

/-- The mutating operations of a transaction, for quantifying over operation
sequences.  `commitOp`/`abortOp`/`exitOp` carry the HTTP oracle; `addFileOp`
carries its arguments and the server's response. -/
inductive Op where
  | commitOp (clientOk : Bool)
  | abortOp (clientOk : Bool)
  | leakOp
  | addFileOp (path : UploadPath) (name : Option String) (resp : Response)
  | exitOp (clientOk : Bool)
deriving Repr

/-- Run one operation on a transaction, returning the next transaction
state. -/
def runOp (t : DepositionTransaction) (op : Op) : DepositionTransaction :=
  match op with
  | Op.commitOp ok => (t.commit ok).2.1
  | Op.abortOp ok => (t.abort ok).2.1
  | Op.leakOp => t.leak.2.1
  | Op.addFileOp path name resp => (t.add_file path name resp).2.1
  | Op.exitOp ok => (t.scope_exit ok).2.1

/-- Run a sequence of operations. -/
def runOps (t : DepositionTransaction) (ops : List Op) : DepositionTransaction :=
  ops.foldl runOp t

/-- Count the remote delete requests (calls to `Client.abort_deposition`) in
an effect trace. -/
def countDeletes (effs : List Effect) : Nat :=
  effs.countP (fun e => match e with | Effect.delete _ => true | _ => false)

/-- Count the remote publish requests (calls to `Client.commit_deposition`) in
an effect trace. -/
def countPublishes (effs : List Effect) : Nat :=
  effs.countP (fun e => match e with | Effect.publish _ => true | _ => false)

/-- Whether an `Except` outcome is a domain error (`ValueError`). -/
def isDomainError {α : Type} : Except ZError α → Bool
  | Except.error (ZError.domain _) => true
  | _ => false

/-- A sample deposition record for witnesses. -/
def sampleRecord : DepositionRecord :=
  { id := "42", state := "inprogress", submitted := false,
    metadata := { prereserve_doi := some { doi := "10.5281/zenodo.123" } },
    links_bucket := "https://sandbox.zenodo.org/api/files/bkt" }

/-- A sample transaction in a given state. -/
def sampleAt (s : TState) : DepositionTransaction :=
  { _deposition_json := sampleRecord, _state := s }

/-- The read-only properties of a transaction. -/
inductive AccessorOp where
  | deposition_idA
  | reserved_doiA
  | bucket_linkA
  | pendingA
  | committedA
  | abortedA
  | leakedA
deriving DecidableEq, Repr

/-- The value returned by an accessor. -/
inductive AccessorValue where
  | strV (s : String)
  | optV (o : Option String)
  | boolV (b : Bool)
deriving DecidableEq, Repr

/-- Run one accessor (property read) on a transaction, in the same shape as
the mutating operations: result (possibly an error) plus the transaction the
method leaves behind.  Each branch embeds the corresponding `@property` of
`DepositionTransaction`, which only reads fields of the typed record. -/
def accessorStep (t : DepositionTransaction) (a : AccessorOp) :
    Except ZError AccessorValue × DepositionTransaction :=
  match a with
  | AccessorOp.deposition_idA => (Except.ok (AccessorValue.strV t.deposition_id), t)
  | AccessorOp.reserved_doiA => (Except.ok (AccessorValue.optV t.reserved_deposition_doi), t)
  | AccessorOp.bucket_linkA => (Except.ok (AccessorValue.strV t.bucket_link), t)
  | AccessorOp.pendingA => (Except.ok (AccessorValue.boolV t.pending), t)
  | AccessorOp.committedA => (Except.ok (AccessorValue.boolV t.committed), t)
  | AccessorOp.abortedA => (Except.ok (AccessorValue.boolV t.aborted), t)
  | AccessorOp.leakedA => (Except.ok (AccessorValue.boolV t.leaked), t)

/-- In any non-Pending state every operation leaves the transaction literally
unchanged, except `abort` from Committed (which falls through to the remote
delete).  This is the per-operation case analysis behind the terminal-state
results. -/
theorem runOp_frozen (t : DepositionTransaction) (op : Op)
    (h : t._state = TState.Aborted ∨ t._state = TState.Leaked) :
    runOp t op = t := by
  have hp : t.pending = false := by
    rcases h with h | h <;> simp [DepositionTransaction.pending, h]
  have hc : t.committed = false := by
    rcases h with h | h <;> simp [DepositionTransaction.committed, h]
  cases op with
  | commitOp ok =>
      simp [runOp, DepositionTransaction.commit, hp]
  | abortOp ok =>
      rcases h with h | h <;>
        simp [runOp, DepositionTransaction.abort, hc,
          DepositionTransaction.leaked, DepositionTransaction.aborted, h]
  | leakOp =>
      simp [runOp, DepositionTransaction.leak, DepositionTransaction._expect_pending, hp]
  | addFileOp path name resp =>
      simp [runOp, DepositionTransaction.add_file, DepositionTransaction._expect_pending, hp]
  | exitOp ok =>
      rcases h with h | h <;>
        simp [runOp, DepositionTransaction.scope_exit, hc, DepositionTransaction.abort,
          DepositionTransaction.leaked, DepositionTransaction.aborted, h]

/-- A Pending transaction satisfies the four state predicates accordingly. -/
theorem preds_of_pending (t : DepositionTransaction) (h : t._state = TState.Pending) :
    t.pending = true ∧ t.committed = false ∧ t.aborted = false ∧ t.leaked = false := by
  simp [DepositionTransaction.pending, DepositionTransaction.committed,
    DepositionTransaction.aborted, DepositionTransaction.leaked, h]

/-- A non-Pending transaction fails the `pending` predicate. -/
theorem pending_false_of_ne (t : DepositionTransaction)
    (h : t._state ≠ TState.Pending) : t.pending = false := by
  simpa [DepositionTransaction.pending] using h

/-- C1.  The claim states that `abort()` on a Committed transaction performs
no remote action and leaves the state Committed.  The code's `committed`
branch logs the warning but does not return, so control falls through to
`Client.abort_deposition` and the state assignment.  Amended and proved here:
`abort()` on a Committed transaction logs a warning AND issues exactly one
remote delete request; if that call succeeds the state becomes Aborted, and
only if it raises does the state stay Committed. -/
theorem C1_abort_committed (t : DepositionTransaction)
    (h : t._state = TState.Committed) (ok : Bool) :
    Effect.warn ∈ (t.abort ok).2.2
    ∧ countDeletes (t.abort ok).2.2 = 1
    ∧ (ok = true → (t.abort ok).2.1._state = TState.Aborted)
    ∧ (ok = false → (t.abort ok).2.1 = t) := by
  have hc : t.committed = true := by simp [DepositionTransaction.committed, h]
  cases ok <;>
    simp [DepositionTransaction.abort, hc, Client.abort_deposition, countDeletes]

/-- C1, witness: the amended behaviour at a concrete Committed transaction. -/
theorem C1_abort_committed_witness :
    Effect.warn ∈ ((sampleAt TState.Committed).abort true).2.2
    ∧ countDeletes ((sampleAt TState.Committed).abort true).2.2 = 1
    ∧ (true = true →
        ((sampleAt TState.Committed).abort true).2.1._state = TState.Aborted)
    ∧ (true = false →
        ((sampleAt TState.Committed).abort true).2.1 = sampleAt TState.Committed) :=
  C1_abort_committed (sampleAt TState.Committed) rfl true

/-- C1, counterexample to the claim as stated: on a concrete Committed
transaction, `abort()` does issue a remote delete request and the state does
change to Aborted. -/
theorem C1_counterexample :
    countDeletes ((sampleAt TState.Committed).abort true).2.2 = 1
    ∧ ((sampleAt TState.Committed).abort true).2.1._state = TState.Aborted := by
  decide

/-- C2.  The claim states that all three of Committed, Aborted, Leaked are
terminal.  Committed is not: `abort()` moves it to Aborted (see C1).  Amended
and proved here: Aborted and Leaked are terminal — no sequence of operations
changes the transaction at all — while from Committed the ONLY transition is
via `abort()`: commit, leak, add_file and scope exit each leave a Committed
transaction literally unchanged (for every HTTP outcome and every argument),
and `abort()` issues exactly one remote delete request, after which the state
is Aborted when the remote call succeeds and unchanged when it raises. -/
theorem C2_terminal_states (t : DepositionTransaction) (ops : List Op) :
    ((t._state = TState.Aborted ∨ t._state = TState.Leaked) → runOps t ops = t)
    ∧ (t._state = TState.Committed →
        (∀ ok : Bool, runOp t (Op.commitOp ok) = t)
        ∧ runOp t Op.leakOp = t
        ∧ (∀ (path : UploadPath) (name : Option String) (resp : Response),
            runOp t (Op.addFileOp path name resp) = t)
        ∧ (∀ ok : Bool, runOp t (Op.exitOp ok) = t)
        ∧ (∀ ok : Bool,
            countDeletes (t.abort ok).2.2 = 1
            ∧ (ok = true →
                runOp t (Op.abortOp ok) = { t with _state := TState.Aborted })
            ∧ (ok = false → runOp t (Op.abortOp ok) = t))) := by
  constructor
  · intro h
    induction ops with
    | nil => rfl
    | cons op ops ih =>
        show List.foldl runOp (runOp t op) ops = t
        rw [runOp_frozen t op h]
        exact ih
  · intro h
    have hc : t.committed = true := by simp [DepositionTransaction.committed, h]
    have hp : t.pending = false := by simp [DepositionTransaction.pending, h]
    refine ⟨?_, ?_, ?_, ?_, ?_⟩
    · intro ok
      simp [runOp, DepositionTransaction.commit, hp]
    · simp [runOp, DepositionTransaction.leak, DepositionTransaction._expect_pending, hp]
    · intro path name resp
      simp [runOp, DepositionTransaction.add_file,
        DepositionTransaction._expect_pending, hp]
    · intro ok
      simp [runOp, DepositionTransaction.scope_exit, hc]
    · intro ok
      cases ok <;>
        simp [runOp, DepositionTransaction.abort, hc, Client.abort_deposition,
          countDeletes]

/-- C2, witness: a concrete Aborted transaction is unchanged by a concrete
sequence containing every kind of operation, and for a concrete Committed
transaction scope exit is the identity while abort issues one delete and
moves it to Aborted. -/
theorem C2_terminal_states_witness :
    runOps (sampleAt TState.Aborted)
      [Op.commitOp true, Op.abortOp true, Op.leakOp,
       Op.addFileOp { name := "CITATION.cff" } none { is_success := true },
       Op.exitOp true] = sampleAt TState.Aborted
    ∧ runOp (sampleAt TState.Committed) (Op.exitOp true) = sampleAt TState.Committed
    ∧ runOp (sampleAt TState.Committed) (Op.commitOp true) = sampleAt TState.Committed
    ∧ countDeletes ((sampleAt TState.Committed).abort true).2.2 = 1
    ∧ runOp (sampleAt TState.Committed) (Op.abortOp true)
        = { sampleAt TState.Committed with _state := TState.Aborted } :=
  ⟨(C2_terminal_states (sampleAt TState.Aborted) _).1 (Or.inl rfl),
   ((C2_terminal_states (sampleAt TState.Committed) []).2 rfl).2.2.2.1 true,
   ((C2_terminal_states (sampleAt TState.Committed) []).2 rfl).1 true,
   (((C2_terminal_states (sampleAt TState.Committed) []).2 rfl).2.2.2.2 true).1,
   (((C2_terminal_states (sampleAt TState.Committed) []).2 rfl).2.2.2.2 true).2.1 rfl⟩

/-- C2, counterexample to the claim as stated: Committed is a "terminal"
state by the claim, yet `abort()` transitions a concrete Committed
transaction to Aborted. -/
theorem C2_counterexample :
    (runOp (sampleAt TState.Committed) (Op.abortOp true))._state = TState.Aborted
    ∧ runOp (sampleAt TState.Committed) (Op.abortOp true) ≠ sampleAt TState.Committed := by
  decide

/-- C3: on scope exit a Pending transaction triggers exactly one remote
delete (one `Client.abort_deposition` call), and a Committed or Leaked
transaction triggers zero, whether or not the remote call succeeds. -/
theorem C3_scope_exit_deletes (t : DepositionTransaction) (ok : Bool) :
    (t._state = TState.Pending → countDeletes (t.scope_exit ok).2.2 = 1)
    ∧ ((t._state = TState.Committed ∨ t._state = TState.Leaked) →
        countDeletes (t.scope_exit ok).2.2 = 0) := by
  constructor
  · intro h
    obtain ⟨hp, hc, ha, hl⟩ := preds_of_pending t h
    cases ok <;>
      simp [DepositionTransaction.scope_exit, DepositionTransaction.abort, hc, ha, hl,
        Client.abort_deposition, countDeletes]
  · intro h
    rcases h with h | h <;>
      simp [DepositionTransaction.scope_exit, DepositionTransaction.committed,
        DepositionTransaction.leaked, h, countDeletes]

/-- C3, witness: concrete Pending and Committed transactions on scope exit. -/
theorem C3_scope_exit_deletes_witness :
    countDeletes ((sampleAt TState.Pending).scope_exit true).2.2 = 1
    ∧ countDeletes ((sampleAt TState.Committed).scope_exit true).2.2 = 0 :=
  ⟨(C3_scope_exit_deletes (sampleAt TState.Pending) true).1 rfl,
   (C3_scope_exit_deletes (sampleAt TState.Committed) true).2 (Or.inl rfl)⟩

/-- C4: `leak()` and `add_file()` raise a domain error (`ValueError`) from
every non-Pending state; `leak()` from Pending moves the state to Leaked; and
for every transaction, `leak()` followed by `add_file()` fails with a domain
error. -/
theorem C4_leak_then_add_file (t : DepositionTransaction) (path : UploadPath)
    (name : Option String) (resp : Response) :
    (t._state ≠ TState.Pending →
        isDomainError (t.leak).1 = true
        ∧ isDomainError (t.add_file path name resp).1 = true)
    ∧ (t._state = TState.Pending → (t.leak).2.1._state = TState.Leaked)
    ∧ isDomainError ((t.leak).2.1.add_file path name resp).1 = true := by
  rcases t with ⟨rec, s⟩
  cases s <;>
    simp [DepositionTransaction.leak, DepositionTransaction.add_file,
      DepositionTransaction._expect_pending, DepositionTransaction.pending,
      isDomainError]

/-- C4, witness: the guards at concrete transactions (a Leaked one for the
strict guard, a Pending one for the leak-then-add_file sequence). -/
theorem C4_leak_then_add_file_witness :
    isDomainError ((sampleAt TState.Leaked).leak).1 = true
    ∧ ((sampleAt TState.Pending).leak).2.1._state = TState.Leaked
    ∧ isDomainError
        (((sampleAt TState.Pending).leak).2.1.add_file
          { name := "CITATION.cff" } none { is_success := true }).1 = true :=
  ⟨((C4_leak_then_add_file (sampleAt TState.Leaked)
      { name := "CITATION.cff" } none { is_success := true }).1 (by decide)).1,
   (C4_leak_then_add_file (sampleAt TState.Pending)
      { name := "CITATION.cff" } none { is_success := true }).2.1 rfl,
   (C4_leak_then_add_file (sampleAt TState.Pending)
      { name := "CITATION.cff" } none { is_success := true }).2.2⟩

/-- C5: `commit()` from Pending issues exactly one publish request and moves
the state to Committed; from any non-Pending state it returns successfully
(never raises), changes nothing and issues no publish request; hence after a
successful `commit()` a second `commit()` leaves the state Committed and
issues no second publish request. -/
theorem C5_commit_idempotent (t : DepositionTransaction) :
    (t._state = TState.Pending →
        (t.commit true).1 = Except.ok ()
        ∧ (t.commit true).2.1._state = TState.Committed
        ∧ countPublishes (t.commit true).2.2 = 1)
    ∧ (t._state ≠ TState.Pending → ∀ ok : Bool,
        (t.commit ok).1 = Except.ok ()
        ∧ (t.commit ok).2.1 = t
        ∧ countPublishes (t.commit ok).2.2 = 0)
    ∧ (t._state = TState.Pending → ∀ ok : Bool,
        ((t.commit true).2.1.commit ok).1 = Except.ok ()
        ∧ ((t.commit true).2.1.commit ok).2.1._state = TState.Committed
        ∧ countPublishes ((t.commit true).2.1.commit ok).2.2 = 0) := by
  refine ⟨?_, ?_, ?_⟩
  · intro h
    have hp : t.pending = true := (preds_of_pending t h).1
    simp [DepositionTransaction.commit, hp, Client.commit_deposition, countPublishes]
  · intro h ok
    have hp : t.pending = false := pending_false_of_ne t h
    simp [DepositionTransaction.commit, hp, countPublishes]
  · intro h ok
    have hp : t.pending = true := (preds_of_pending t h).1
    have hstep : (t.commit true).2.1 = { t with _state := TState.Committed } := by
      simp [DepositionTransaction.commit, hp, Client.commit_deposition]
    rw [hstep]
    simp [DepositionTransaction.commit, DepositionTransaction.pending, countPublishes]

/-- C5, witness: committing a concrete Pending transaction, a concrete
non-Pending one, and committing twice. -/
theorem C5_commit_idempotent_witness :
    (((sampleAt TState.Pending).commit true).1 = Except.ok ()
      ∧ ((sampleAt TState.Pending).commit true).2.1._state = TState.Committed
      ∧ countPublishes ((sampleAt TState.Pending).commit true).2.2 = 1)
    ∧ (((sampleAt TState.Leaked).commit true).1 = Except.ok ()
      ∧ ((sampleAt TState.Leaked).commit true).2.1 = sampleAt TState.Leaked
      ∧ countPublishes ((sampleAt TState.Leaked).commit true).2.2 = 0)
    ∧ ((((sampleAt TState.Pending).commit true).2.1.commit true).1 = Except.ok ()
      ∧ (((sampleAt TState.Pending).commit true).2.1.commit true).2.1._state
          = TState.Committed
      ∧ countPublishes (((sampleAt TState.Pending).commit true).2.1.commit true).2.2
          = 0) :=
  ⟨(C5_commit_idempotent (sampleAt TState.Pending)).1 rfl,
   (C5_commit_idempotent (sampleAt TState.Leaked)).2.1 (by decide) true,
   (C5_commit_idempotent (sampleAt TState.Pending)).2.2 rfl true⟩

/-- C6: `continue_deposition` on a record that is submitted or whose state is
`done` or `error` raises a domain error (and so creates no transaction); on
any other record it returns a fresh transaction in the Pending state wrapping
that record. -/
theorem C6_continue_deposition_guard (rec : DepositionRecord) :
    ((rec.submitted = true ∨ rec.state = "done" ∨ rec.state = "error") →
        isDomainError (Client.continue_deposition rec) = true)
    ∧ (rec.submitted = false → rec.state ≠ "done" → rec.state ≠ "error" →
        Client.continue_deposition rec
          = Except.ok (DepositionTransaction.mk_new rec)
        ∧ (DepositionTransaction.mk_new rec)._state = TState.Pending) := by
  constructor
  · intro h
    rcases h with h | h | h <;>
      simp [Client.continue_deposition, h, isDomainError]
  · intro h1 h2 h3
    simp [Client.continue_deposition, h1, h2, h3, DepositionTransaction.mk_new]

/-- C6, witness: a concrete submitted record is rejected and a concrete
in-progress record yields a Pending transaction. -/
theorem C6_continue_deposition_guard_witness :
    isDomainError (Client.continue_deposition { sampleRecord with submitted := true })
      = true
    ∧ Client.continue_deposition sampleRecord
        = Except.ok (DepositionTransaction.mk_new sampleRecord) :=
  ⟨(C6_continue_deposition_guard { sampleRecord with submitted := true }).1
      (Or.inl rfl),
   ((C6_continue_deposition_guard sampleRecord).2 rfl (by decide) (by decide)).1⟩

/-- The metadata instance built in `main()` but with `doi` explicitly passed
as `None` and `prereserve_doi` left to its default `False`. -/
def exMetadataInstance : DepositionMetadataInstance :=
  { value :=
      { upload_type := "software"
        title := "Test Zenodo upload 3"
        description := "Testing uploading to Zenodo"
        creators := [{ name := "Jan-Lukas Wynen", affiliation := none, orcid := none }]
        access_right := "open"
        license := "BSD-3-Clause"
        version := "0.3"
        doi := none
        prereserve_doi := false }
    doi_was_set := true
    prereserve_doi_was_set := false }

/-- C7.  The claim states that serialization omits exactly the fields left
unset and keeps every explicitly set field.  The code serializes with
pydantic's `exclude_none=True`, which never consults set-ness: it drops
exactly the `None`-VALUED fields.  Amended and proved here: a field appears
in the body iff its value is not `None` — a `None`-valued field is dropped
even when explicitly set, and a non-`None` field (even one equal to an empty
value such as `False`) is kept even when left unset. -/
theorem C7_dump_keys_by_value (m : DepositionMetadataInstance) (p : Person) :
    dumpKeys m.model_dump
      = ["upload_type", "title", "description", "creators", "access_right",
         "license", "version"]
        ++ (if m.value.doi.isSome then ["doi"] else []) ++ ["prereserve_doi"]
    ∧ ("affiliation" ∈ dumpKeys p.model_dump_exclude_none
        ↔ p.affiliation.isSome = true) := by
  constructor
  · cases h : m.value.doi <;>
      simp [DepositionMetadataInstance.model_dump,
        DepositionMetadata.model_dump_exclude_none, dumpOptField, dumpKeys, h]
  · cases h : p.affiliation <;> cases ho : p.orcid <;>
      simp [Person.model_dump_exclude_none, dumpOptField, dumpKeys, h, ho]

/-- C7, counterexample to the claim as stated: in a concrete metadata
instance, `doi` is explicitly set (to `None`) yet dropped from the body, and
`prereserve_doi` is left unset yet kept; the produced keys differ from the
keys the claimed set-ness rule would produce. -/
theorem C7_counterexample :
    exMetadataInstance.doi_was_set = true
    ∧ "doi" ∉ dumpKeys exMetadataInstance.model_dump
    ∧ exMetadataInstance.prereserve_doi_was_set = false
    ∧ "prereserve_doi" ∈ dumpKeys exMetadataInstance.model_dump
    ∧ dumpKeys exMetadataInstance.model_dump
        ≠ dumpKeys exMetadataInstance.dump_spec_rule := by
  decide

/-- C8: `reserved_deposition_doi` is `None` when the record's metadata has no
`prereserve_doi` entry, and the nested `doi` string when the entry is
present. -/
theorem C8_reserved_deposition_doi (t : DepositionTransaction) :
    (t._deposition_json.metadata.prereserve_doi = none →
        t.reserved_deposition_doi = none)
    ∧ (∀ obj : PrereserveDoi,
        t._deposition_json.metadata.prereserve_doi = some obj →
        t.reserved_deposition_doi = some obj.doi) := by
  constructor
  · intro h
    simp [DepositionTransaction.reserved_deposition_doi, h]
  · intro obj h
    simp [DepositionTransaction.reserved_deposition_doi, h]

/-- A sample record whose metadata has no `prereserve_doi` entry. -/
def recordNoDoi : DepositionRecord :=
  { sampleRecord with metadata := { prereserve_doi := none } }

/-- C8, witness: concrete records with and without a pre-reserved DOI. -/
theorem C8_reserved_deposition_doi_witness :
    (DepositionTransaction.mk_new recordNoDoi).reserved_deposition_doi = none
    ∧ (DepositionTransaction.mk_new sampleRecord).reserved_deposition_doi
        = some "10.5281/zenodo.123" :=
  ⟨(C8_reserved_deposition_doi (DepositionTransaction.mk_new recordNoDoi)).1 rfl,
   (C8_reserved_deposition_doi (DepositionTransaction.mk_new sampleRecord)).2
      { doi := "10.5281/zenodo.123" } rfl⟩

/-- C9: every accessor (deposition id, reserved DOI, bucket link, and the
four state predicates) leaves the transaction unchanged and never produces an
error, for every transaction and every record it wraps. -/
theorem C9_accessors_safe (t : DepositionTransaction) (a : AccessorOp) :
    (accessorStep t a).2 = t
    ∧ ∀ e : ZError, (accessorStep t a).1 ≠ Except.error e := by
  cases a <;> simp [accessorStep]

/-- C10: for a Pending transaction, when the remote call made by `commit()`
or `abort()` raises an HTTP error, the error propagates and the transaction
is unchanged — it remains Pending, because the state field is assigned only
after the `Client` call returns. -/
theorem C10_remote_failure_keeps_pending (t : DepositionTransaction)
    (h : t._state = TState.Pending) :
    (t.commit false).1 = Except.error ZError.http
    ∧ (t.commit false).2.1 = t
    ∧ (t.abort false).1 = Except.error ZError.http
    ∧ (t.abort false).2.1 = t := by
  obtain ⟨hp, hc, ha, hl⟩ := preds_of_pending t h
  simp [DepositionTransaction.commit, DepositionTransaction.abort, hp, hc, ha, hl,
    Client.commit_deposition, Client.abort_deposition]

/-- C10, witness: a concrete Pending transaction with a failing remote
call. -/
theorem C10_remote_failure_keeps_pending_witness :
    ((sampleAt TState.Pending).commit false).1 = Except.error ZError.http
    ∧ ((sampleAt TState.Pending).commit false).2.1 = sampleAt TState.Pending
    ∧ ((sampleAt TState.Pending).abort false).1 = Except.error ZError.http
    ∧ ((sampleAt TState.Pending).abort false).2.1 = sampleAt TState.Pending :=
  C10_remote_failure_keeps_pending (sampleAt TState.Pending) rfl

end Deposit
